import Mathlib

/-!
Shallow embedding of `src/main.rs` of the `buzzle` bughouse-puzzle trainer.

The rules engine (`shakmaty`) and the board widget (`chessground`) are
external collaborators that the program consumes opaquely: we abstract the
capabilities the core calls into as an `Engine` record (legal-move listing,
applying a move, the accessor functions `from` / `to` / `promotion` on moves,
building a drop move, decoding a FEN string, resolving a SAN token).  All of
the program's own logic — the `Win::update` message handlers, `try_move`,
`show_position`, the tail of `import_file`, and the `FENImporter` visitor —
is translated directly from the source.

Machine integers: `usize` is modelled as `Nat`; the two places where the
source can underflow a `usize` subtraction (`puzzles.len() - 1` in the
`NextPuzzle` handler and `fen[..index - 1]` in `FENImporter::header`) are
modelled by returning `none` (the Rust code panics there: overflow panic in
debug builds, and in release builds the wrapped value is an out-of-range
slice bound, which also panics).  Every other operation in the translated
core is total, so it returns a plain value.
-/

namespace Buzzle

/-- Capabilities of the external collaborators (shakmaty rules engine and
chessground move messages), consumed opaquely by the core.  `Pos` is a full
bughouse position, `Mv` a move value with structural equality, `F` a parsed
FEN setup, `San` a parsed SAN token.  Squares and roles are numbered. -/
structure Engine (Pos Mv F San : Type) where
  legals : Pos → List Mv
  play_unchecked : Pos → Mv → Pos
  move_from : Mv → Option Nat
  move_to : Mv → Nat
  move_promotion : Mv → Option Nat
  put : Nat → Nat → Mv
  fen_from_ascii : List Nat → Option F
  from_setup : F → Option Pos
  san_to_move : San → Pos → Option Mv
  default_pos : Pos

/-- `struct Puzzle { moves: Vec<Move>, position: Bughouse }`. -/
structure Puzzle (Pos Mv : Type) where
  moves : List Mv
  position : Pos
deriving DecidableEq

/-- A chessground piece: colour and role (only the role is consumed). -/
structure Piece where
  color : Bool
  role : Nat
deriving DecidableEq

/-- The session state of `Model` (the `relm` stream handle is omitted: it is
the message-dispatch infrastructure, not session state). -/
structure Model (Pos Mv : Type) where
  can_play : Bool
  current_move : Nat
  current_position : Pos
  current_puzzle : Nat
  puzzles : List (Puzzle Pos Mv)
  text : String
deriving DecidableEq

/-- The session-relevant constructors of `enum Msg` (`Flip`, `ImportPGN` and
`Quit` touch only the GUI). -/
inductive Msg where
  | MovePlayed (orig : Nat) (dest : Nat) (promotion : Option Nat)
  | NextPuzzle
  | PieceDrop (piece : Piece) (square : Nat)
  | PlayOpponentMove
  | PreviousPuzzle
deriving DecidableEq

variable {Pos Mv F San : Type}

/-- `Win::show_position`: snapshot the active puzzle's stored position into
`current_position` (the `SetPos` / `SetPockets` widget emissions are GUI
output).  A no-op when `current_puzzle` is out of range. -/
def show_position (m : Model Pos Mv) : Model Pos Mv :=
  match m.puzzles[m.current_puzzle]? with
  | some puzzle => { m with current_position := puzzle.position }
  | none => m

/-- `Win::try_move`.  The returned `Bool` records whether the 1000 ms
`PlayOpponentMove` timeout was scheduled.  `expected` is the solution move
the source binds as `current_move` inside the `if let`. -/
def try_move [DecidableEq Mv] (e : Engine Pos Mv F San) (m : Model Pos Mv)
    (mov : Option Mv) : Model Pos Mv × Bool :=
  match m.puzzles[m.current_puzzle]? with
  | some puzzle =>
    match puzzle.moves[m.current_move]? with
    | some expected =>
      match mov with
      | some mv =>
        if mv = expected then
          let m1 : Model Pos Mv :=
            { m with current_move := m.current_move + 1,
                     current_position := e.play_unchecked m.current_position mv,
                     can_play := false }
          if m1.current_move = puzzle.moves.length then
            ({ m1 with text := "Success" }, false)
          else
            (m1, true)
        else
          ({ m with text := "Wrong answer" }, false)
      | none => (m, false)
    | none => (m, false)
  | none => (m, false)

/-- The `PlayOpponentMove` arm of `Win::update`: play the recorded solution
move at the current index of the currently active puzzle, if any. -/
def play_opponent_move (e : Engine Pos Mv F San) (m : Model Pos Mv) :
    Model Pos Mv :=
  match m.puzzles[m.current_puzzle]? with
  | some puzzle =>
    match puzzle.moves[m.current_move]? with
    | some mv =>
      { m with can_play := true,
               current_move := m.current_move + 1,
               current_position := e.play_unchecked m.current_position mv }
    | none => m
  | none => m

/-- The predicate of the `legals.iter().find(...)` call in the `MovePlayed`
arm: match a legal move by origin, destination and promotion. -/
def resolves (e : Engine Pos Mv F San) (orig dest : Nat)
    (promotion : Option Nat) (mv : Mv) : Bool :=
  e.move_from mv == some orig && e.move_to mv == dest &&
    e.move_promotion mv == promotion

/-- `Win::update` on the session messages.  Result `none` models a panic;
the `Bool` records whether a `PlayOpponentMove` timeout was scheduled. -/
def update [DecidableEq Mv] (e : Engine Pos Mv F San) (m : Model Pos Mv) :
    Msg → Option (Model Pos Mv × Bool)
  | Msg.MovePlayed orig dest promotion =>
    if !m.can_play then some (m, false)
    else
      let m1 : Model Pos Mv := { m with text := "" }
      let mov := (e.legals m1.current_position).find? (resolves e orig dest promotion)
      some (try_move e m1 mov)
  | Msg.NextPuzzle =>
    -- `min(current_puzzle + 1, puzzles.len() - 1)`: the `usize` subtraction
    -- panics when the collection is empty.
    if m.puzzles.length = 0 then none
    else
      some (show_position
        { m with current_move := 0,
                 current_puzzle := min (m.current_puzzle + 1) (m.puzzles.length - 1) },
        false)
  | Msg.PieceDrop piece square =>
    if !m.can_play then some (m, false)
    else
      let mov := e.put piece.role square
      if mov ∈ e.legals m.current_position then some (try_move e m (some mov))
      else some (m, false)
  | Msg.PlayOpponentMove => some (play_opponent_move e m, false)
  | Msg.PreviousPuzzle =>
    -- `if current_puzzle > 0 { current_puzzle -= 1 }` is exactly truncated
    -- subtraction on `Nat`.
    some (show_position
      { m with current_move := 0, current_puzzle := m.current_puzzle - 1 },
      false)

/-- The tail of `Win::import_file` after a successful parse: install the
imported puzzle list and reset the session, then `show_position`. -/
def load_puzzles (m : Model Pos Mv) (ps : List (Puzzle Pos Mv)) :
    Model Pos Mv :=
  show_position
    { m with puzzles := ps, current_puzzle := 0, current_move := 0,
             can_play := true, text := "" }

/-- `struct FENImporter { current_position: Bughouse, puzzles: Vec<Puzzle> }`. -/
structure FENImporter (Pos Mv : Type) where
  current_position : Pos
  puzzles : List (Puzzle Pos Mv)
deriving DecidableEq

/-- `FENImporter::new`. -/
def FENImporter.new (e : Engine Pos Mv F San) : FENImporter Pos Mv :=
  { current_position := e.default_pos, puzzles := [] }

/-- The bytes of the header key `b"FEN"`. -/
def fenKey : List Nat := [70, 69, 78]

/-- The byte `b'|'`. -/
def pipeByte : Nat := 124

/-- `FENImporter::header` (`Visitor::header`).  `none` models the panic of
`&fen[..index - 1]` when the pipe is the value's first byte (`usize`
underflow).  The `partner` slice `&fen[index + 1..]` is bound but unused in
the source, so it is not modelled.  The `eprintln!` warnings are diagnostics
on the reporting sink; they do not change the importer state. -/
def header (e : Engine Pos Mv F San) (imp : FENImporter Pos Mv)
    (key value : List Nat) : Option (FENImporter Pos Mv) :=
  if key = fenKey then
    match value.findIdx? (fun b => b == pipeByte) with
    | some index =>
      if index = 0 then none
      else
        let player := value.take (index - 1)
        match e.fen_from_ascii player with
        | some fen =>
          match e.from_setup fen with
          | some setup =>
            some { current_position := setup,
                   puzzles := imp.puzzles ++ [{ moves := [], position := setup }] }
          | none => some imp
        | none => some imp
    | none => some imp
  else some imp

/-- `FENImporter::san` (`Visitor::san`): resolve the token against the
cursor position, advance the cursor and push the move onto the most recently
created puzzle (`puzzles.last_mut()`), or drop the token. -/
def san (e : Engine Pos Mv F San) (imp : FENImporter Pos Mv) (sp : San) :
    FENImporter Pos Mv :=
  match imp.puzzles.getLast? with
  | some puzzle =>
    match e.san_to_move sp imp.current_position with
    | some mov =>
      { current_position := e.play_unchecked imp.current_position mov,
        puzzles := imp.puzzles.dropLast ++
          [{ puzzle with moves := puzzle.moves ++ [mov] }] }
    | none => imp
  | none => imp

/-- Driver for the solution playthrough of claim C4: while a solution move
remains, the trainee submits it (it reaches `try_move` resolved, as both
handlers funnel the resolved move there), and whenever a `PlayOpponentMove`
timeout was scheduled it fires before the next submission.  The returned
`Bool` is the scheduled-timeout flag of the last step. -/
def runLine [DecidableEq Mv] (e : Engine Pos Mv F San) :
    Nat → Model Pos Mv → Model Pos Mv × Bool
  | 0, m => (m, false)
  | fuel + 1, m =>
    match m.puzzles[m.current_puzzle]? with
    | some puzzle =>
      match puzzle.moves[m.current_move]? with
      | some mv =>
        match try_move e m (some mv) with
        | (m1, true) => runLine e fuel (play_opponent_move e m1)
        | (m1, false) => (m1, false)
      | none => (m, false)
    | none => (m, false)

/-! ### Concrete instantiation used by witnesses and counterexamples -/

/-- A small concrete engine over numbered positions and moves: every
position offers the moves `0`, `1`, `2`; playing move `mv` on position `p`
yields `p + mv + 1`; move `mv` goes from square `mv` to square `mv` with no
promotion; the drop of role `r` on square `s` is the move `r + s`; the FEN
string `"8"` (byte 56) decodes to setup `7`, which resolves to position
`42`; the SAN token `1` resolves to move `2` on every position. -/
def natEngine : Engine Nat Nat Nat Nat where
  legals _ := [0, 1, 2]
  play_unchecked p mv := p + mv + 1
  move_from mv := some mv
  move_to mv := mv
  move_promotion _ := none
  put role square := role + square
  fen_from_ascii bs := if bs = [56] then some 7 else none
  from_setup f := if f = 7 then some 42 else none
  san_to_move sp _ := if sp = 1 then some 2 else none
  default_pos := 0

/-- First concrete puzzle: two recorded solution moves. -/
def pzA : Puzzle Nat Nat := { moves := [1, 2], position := 10 }

/-- Second concrete puzzle: two recorded solution moves. -/
def pzB : Puzzle Nat Nat := { moves := [2, 1], position := 20 }

/-- Single-move concrete puzzle. -/
def pzOne : Puzzle Nat Nat := { moves := [1], position := 10 }

/-- C1 scenario, step 0: both puzzles loaded, puzzle 0 active and fresh. -/
def c1s0 : Model Nat Nat :=
  { can_play := true, current_move := 0, current_position := 10,
    current_puzzle := 0, puzzles := [pzA, pzB], text := "" }

/-- C1 scenario after the trainee's first correct move (reply scheduled). -/
def c1s1 : Model Nat Nat :=
  { can_play := false, current_move := 1, current_position := 12,
    current_puzzle := 0, puzzles := [pzA, pzB], text := "" }

/-- C1 scenario after pressing next puzzle with the reply still pending. -/
def c1s2 : Model Nat Nat :=
  { can_play := false, current_move := 0, current_position := 20,
    current_puzzle := 1, puzzles := [pzA, pzB], text := "" }

/-- C1 scenario after the stale timer fires on the new puzzle. -/
def c1s3 : Model Nat Nat :=
  { can_play := true, current_move := 1, current_position := 23,
    current_puzzle := 1, puzzles := [pzA, pzB], text := "" }

/-- C2 counterexample state: mid-solution, blocked, with a visible status. -/
def mC2 : Model Nat Nat :=
  { can_play := false, current_move := 1, current_position := 12,
    current_puzzle := 0, puzzles := [pzA, pzB], text := "Wrong answer" }

/-- C7 counterexample state: playable, with a visible status text. -/
def mC7 : Model Nat Nat :=
  { can_play := true, current_move := 0, current_position := 10,
    current_puzzle := 0, puzzles := [pzA], text := "Wrong answer" }

/-- C8 counterexample state: a non-empty collection already loaded. -/
def mC8 : Model Nat Nat :=
  { can_play := true, current_move := 0, current_position := 10,
    current_puzzle := 0, puzzles := [pzA], text := "" }

/-- C4 scenario, step 0: the even-length puzzle `pzA` loaded and fresh. -/
def c4s0 : Model Nat Nat :=
  { can_play := true, current_move := 0, current_position := 10,
    current_puzzle := 0, puzzles := [pzA], text := "" }

/-- C4 scenario after the trainee's correct first move (reply scheduled). -/
def c4s1 : Model Nat Nat :=
  { can_play := false, current_move := 1, current_position := 12,
    current_puzzle := 0, puzzles := [pzA], text := "" }

/-- C4 scenario after the opponent reply plays the final recorded move. -/
def c4s2 : Model Nat Nat :=
  { can_play := true, current_move := 2, current_position := 15,
    current_puzzle := 0, puzzles := [pzA], text := "" }

/-- Witness state for C4: the single-move puzzle loaded and fresh. -/
def c4w : Model Nat Nat :=
  { can_play := true, current_move := 0, current_position := 10,
    current_puzzle := 0, puzzles := [pzOne], text := "" }

/-- Witness state for C9: standing on the last puzzle of two. -/
def w9last : Model Nat Nat :=
  { can_play := true, current_move := 0, current_position := 20,
    current_puzzle := 1, puzzles := [pzA, pzB], text := "" }

/-- Witness state for C10: the empty collection at program start. -/
def w10 : Model Nat Nat :=
  { can_play := true, current_move := 0, current_position := 0,
    current_puzzle := 0, puzzles := [], text := "" }

/-- Witness importer state for C6: one puzzle created, cursor at `5`. -/
def c6imp : FENImporter Nat Nat :=
  { current_position := 5, puzzles := [{ moves := [], position := 42 }] }

/-- Witness importer state for C6, no puzzle created yet. -/
def c6empty : FENImporter Nat Nat :=
  { current_position := 5, puzzles := [] }

/-! ### Helper lemmas -/

/-- `show_position` touches only `current_position`. -/
theorem show_position_current_puzzle (m : Model Pos Mv) :
    (show_position m).current_puzzle = m.current_puzzle := by
  unfold show_position
  cases hx : m.puzzles[m.current_puzzle]? <;> simp [hx]

/-- `try_move` on an unresolved candidate changes nothing. -/
theorem try_move_none [DecidableEq Mv] (e : Engine Pos Mv F San)
    (m : Model Pos Mv) : try_move e m none = (m, false) := by
  unfold try_move
  split
  · split
    · rfl
    · rfl
  · rfl

/-! ### Claims -/

/-- Claim C10: on an empty puzzle collection (reachable only with
`current_puzzle = current_move = 0`), a previous-puzzle request leaves the
session state unchanged without failing, while a next-puzzle request
underflows the `usize` computation `puzzles.len() - 1` and panics (modelled
as `none`) instead of being a no-op. -/
theorem empty_collection_nav [DecidableEq Mv] (e : Engine Pos Mv F San)
    (m : Model Pos Mv) (h1 : m.puzzles = []) (h2 : m.current_puzzle = 0)
    (h3 : m.current_move = 0) :
    update e m Msg.PreviousPuzzle = some (m, false) ∧
    update e m Msg.NextPuzzle = none := by
  constructor
  · cases m with
    | mk can_play current_move current_position current_puzzle puzzles text =>
      simp only at h1 h2 h3
      subst h1 h2 h3
      simp [update, show_position]
  · simp [update, h1]

/-- Claim C10 witness: the start-up state (empty collection). -/
theorem empty_collection_nav_witness :
    update natEngine w10 Msg.PreviousPuzzle = some (w10, false) ∧
    update natEngine w10 Msg.NextPuzzle = none :=
  empty_collection_nav natEngine w10 (by decide) (by decide) (by decide)

/-- Claim C9: on a non-empty collection, a next-puzzle request at the last
index leaves `current_puzzle` unchanged, and a previous-puzzle request at
index 0 leaves it unchanged. -/
theorem nav_clamps [DecidableEq Mv] (e : Engine Pos Mv F San)
    (m1 m2 : Model Pos Mv) (h1 : m1.puzzles ≠ [])
    (h2 : m1.current_puzzle = m1.puzzles.length - 1)
    (h3 : m2.current_puzzle = 0) :
    (update e m1 Msg.NextPuzzle).map (fun r => r.1.current_puzzle) =
      some m1.current_puzzle ∧
    (update e m2 Msg.PreviousPuzzle).map (fun r => r.1.current_puzzle) =
      some m2.current_puzzle := by
  have hlen : ¬ m1.puzzles.length = 0 := by
    simpa [List.length_eq_zero] using h1
  have hmin : min (m1.puzzles.length - 1 + 1) (m1.puzzles.length - 1) =
      m1.puzzles.length - 1 := min_eq_right (by omega)
  constructor
  · simp only [update, if_neg hlen, h2, hmin]
    simp [show_position_current_puzzle]
  · simp only [update, h3]
    simp [show_position_current_puzzle]

/-- Claim C9 witness: next on the last of two puzzles, previous at index 0. -/
theorem nav_clamps_witness :
    (update natEngine w9last Msg.NextPuzzle).map (fun r => r.1.current_puzzle) =
      some w9last.current_puzzle ∧
    (update natEngine c1s0 Msg.PreviousPuzzle).map (fun r => r.1.current_puzzle) =
      some c1s0.current_puzzle :=
  nav_clamps natEngine w9last c1s0 (by decide) (by decide) (by decide)

/-- Claim C2 counterexample: navigating to the next puzzle from a state with
`status_text = "Wrong answer"` and `can_play = false` keeps both values —
the claim demands `status_text = ""` and `can_play = true` afterwards. -/
theorem nav_reset_counterexample :
    (update natEngine mC2 Msg.NextPuzzle).map (fun r => (r.1.text, r.1.can_play)) =
      some ("Wrong answer", false) ∧
    ("Wrong answer", false) ≠ ("", true) := by
  constructor
  · decide
  · decide

/-- Claim C2, amended: after a next- or previous-puzzle request on a
non-empty collection, `current_move = 0`, `current_puzzle` is clamped
(next: `min (index + 1) (len - 1)`; previous: `index - 1` in truncated
subtraction, i.e. `max (index - 1) 0`), and `current_position` is the newly
active puzzle's stored initial position; `text` and `can_play` are left
unchanged (navigation clears neither). -/
theorem nav_resets_index_and_position [DecidableEq Mv]
    (e : Engine Pos Mv F San) (m : Model Pos Mv) (h : m.puzzles ≠ [])
    (pzN pzP : Puzzle Pos Mv)
    (hN : m.puzzles[min (m.current_puzzle + 1) (m.puzzles.length - 1)]? =
      some pzN)
    (hP : m.puzzles[m.current_puzzle - 1]? = some pzP) :
    update e m Msg.NextPuzzle =
      some ({ m with current_move := 0,
                     current_puzzle := min (m.current_puzzle + 1) (m.puzzles.length - 1),
                     current_position := pzN.position }, false) ∧
    update e m Msg.PreviousPuzzle =
      some ({ m with current_move := 0,
                     current_puzzle := m.current_puzzle - 1,
                     current_position := pzP.position }, false) := by
  have hlen : ¬ m.puzzles.length = 0 := by
    simpa [List.length_eq_zero] using h
  constructor
  · simp [update, if_neg hlen, show_position, hN]
  · simp [update, show_position, hP]

/-- Claim C2 witness: the amended navigation behaviour on `mC2`. -/
theorem nav_resets_index_and_position_witness :
    update natEngine mC2 Msg.NextPuzzle =
      some ({ mC2 with current_move := 0,
                       current_puzzle := min (mC2.current_puzzle + 1) (mC2.puzzles.length - 1),
                       current_position := pzB.position }, false) ∧
    update natEngine mC2 Msg.PreviousPuzzle =
      some ({ mC2 with current_move := 0,
                       current_puzzle := mC2.current_puzzle - 1,
                       current_position := pzA.position }, false) :=
  nav_resets_index_and_position natEngine mC2 (by decide) pzB pzA
    (by decide) (by decide)

/-- Claim C3: a submitted candidate (board move or drop) that resolves to a
legal move different from the expected solution move at the current index
only sets `text` to `"Wrong answer"`: `current_position`, `current_move`,
`can_play` (still `true`) and everything else are unchanged, and no opponent
reply is scheduled. -/
theorem wrong_move_rejected [DecidableEq Mv] (e : Engine Pos Mv F San)
    (m : Model Pos Mv) (pz : Puzzle Pos Mv) (sol : Mv)
    (h1 : m.can_play = true)
    (h2 : m.puzzles[m.current_puzzle]? = some pz)
    (h3 : pz.moves[m.current_move]? = some sol)
    (orig dest : Nat) (promotion : Option Nat) (mov : Mv)
    (hfind : (e.legals m.current_position).find? (resolves e orig dest promotion) =
      some mov)
    (hne : mov ≠ sol)
    (piece : Piece) (square : Nat)
    (hmem : e.put piece.role square ∈ e.legals m.current_position)
    (hne2 : e.put piece.role square ≠ sol) :
    update e m (Msg.MovePlayed orig dest promotion) =
      some ({ m with text := "Wrong answer" }, false) ∧
    update e m (Msg.PieceDrop piece square) =
      some ({ m with text := "Wrong answer" }, false) := by
  constructor
  · simp only [update, h1, Bool.not_true, Bool.false_eq_true, if_false]
    simp only [try_move, h2, h3, hfind, if_neg hne]
  · simp only [update, h1, Bool.not_true, Bool.false_eq_true, if_false,
      if_pos hmem]
    simp only [try_move, h2, h3, if_neg hne2]
    rw [h1]

/-- Claim C3 witness: on the fresh state `c4s0`, the resolvable but wrong
board move `2` and the legal but wrong drop `2`. -/
theorem wrong_move_rejected_witness :
    update natEngine c4s0 (Msg.MovePlayed 2 2 none) =
      some ({ c4s0 with text := "Wrong answer" }, false) ∧
    update natEngine c4s0 (Msg.PieceDrop ⟨true, 0⟩ 2) =
      some ({ c4s0 with text := "Wrong answer" }, false) :=
  wrong_move_rejected natEngine c4s0 pzA 1 (by decide) (by decide) (by decide)
    2 2 none 2 (by decide) (by decide) ⟨true, 0⟩ 2 (by decide) (by decide)

/-- Claim C7 counterexample: with `status_text = "Wrong answer"` on screen,
a board-move submission that resolves against no legal move is not a full
no-op — the handler has already cleared `status_text` to `""` before
resolving, so the session state changes. -/
theorem unresolved_candidate_counterexample :
    update natEngine mC7 (Msg.MovePlayed 5 5 none) =
      some ({ mC7 with text := "" }, false) ∧
    ({ mC7 with text := "" } : Model Nat Nat) ≠ mC7 := by
  constructor
  · decide
  · decide

/-- Claim C7, amended: while `can_play` is true, a drop candidate that is
not in the legal-move set leaves the entire session state unchanged; a
board-move candidate that resolves against no legal move leaves everything
unchanged except `text`, which the handler clears to `""` before
resolution.  Neither schedules an opponent reply. -/
theorem unresolved_candidate_ignored [DecidableEq Mv]
    (e : Engine Pos Mv F San) (m : Model Pos Mv) (h : m.can_play = true)
    (orig dest : Nat) (promotion : Option Nat)
    (hfind : (e.legals m.current_position).find? (resolves e orig dest promotion) =
      none)
    (piece : Piece) (square : Nat)
    (hmem : e.put piece.role square ∉ e.legals m.current_position) :
    update e m (Msg.MovePlayed orig dest promotion) =
      some ({ m with text := "" }, false) ∧
    update e m (Msg.PieceDrop piece square) = some (m, false) := by
  constructor
  · simp only [update, h, Bool.not_true, Bool.false_eq_true, if_false, hfind]
    rw [try_move_none]
  · simp only [update, h, Bool.not_true, Bool.false_eq_true, if_false,
      if_neg hmem]

/-- Claim C7 witness: an unresolvable board move and an illegal drop on
`mC7`. -/
theorem unresolved_candidate_ignored_witness :
    update natEngine mC7 (Msg.MovePlayed 5 5 none) =
      some ({ mC7 with text := "" }, false) ∧
    update natEngine mC7 (Msg.PieceDrop ⟨true, 9⟩ 9) = some (mC7, false) :=
  unresolved_candidate_ignored natEngine mC7 (by decide) 5 5 none (by decide)
    ⟨true, 9⟩ 9 (by decide)

/-- Claim C8 counterexample: loading an empty imported sequence into a
session that already holds puzzles is not a no-op — the puzzle collection is
still replaced (and the indices reset). -/
theorem load_empty_counterexample : load_puzzles mC8 [] ≠ mC8 := by decide

/-- Claim C8, amended: loading an imported sequence always replaces
`puzzles` and resets `current_puzzle = 0`, `current_move = 0`,
`can_play = true`, `text = ""`; `current_position` is snapshotted from the
first puzzle when the sequence is non-empty and is left unchanged when it is
empty (only the `show_position` snapshot is guarded by emptiness, not the
replacement or the resets). -/
theorem load_puzzles_spec (m : Model Pos Mv) (ps : List (Puzzle Pos Mv)) :
    load_puzzles m ps =
      { m with puzzles := ps, current_puzzle := 0, current_move := 0,
               can_play := true, text := "",
               current_position := ps.head?.elim m.current_position Puzzle.position } := by
  cases ps with
  | nil => simp [load_puzzles, show_position]
  | cons p l => simp [load_puzzles, show_position]

/-- Claim C6: a SAN token is appended to the most recently created puzzle's
solution list iff it resolves against the cursor position, in which case the
cursor advances by the resolved move; a failed resolution changes nothing,
and a token arriving before any puzzle exists is discarded with the importer
state unchanged. -/
theorem san_appends_iff_resolves (e : Engine Pos Mv F San)
    (imp : FENImporter Pos Mv) (sp : San) :
    (imp.puzzles = [] → san e imp sp = imp) ∧
    (∀ l pz, imp.puzzles = l ++ [pz] →
      (∀ mov, e.san_to_move sp imp.current_position = some mov →
        san e imp sp =
          { current_position := e.play_unchecked imp.current_position mov,
            puzzles := l ++ [{ moves := pz.moves ++ [mov], position := pz.position }] }) ∧
      (e.san_to_move sp imp.current_position = none → san e imp sp = imp)) := by
  refine ⟨fun h => by simp [san, h], fun l pz hl => ⟨fun mov hmov => ?_, fun hmov => ?_⟩⟩
  · simp [san, hl, hmov, List.getLast?_concat, List.dropLast_concat]
  · simp [san, hl, hmov, List.getLast?_concat]

/-- Claim C6 witness: on `c6imp` the token `1` resolves to move `2`, is
appended to the single puzzle and advances the cursor from `5` to `8`; on
the puzzle-less `c6empty` the same token is discarded. -/
theorem san_appends_iff_resolves_witness :
    san natEngine c6imp 1 =
      { current_position := 8,
        puzzles := [{ moves := [2], position := 42 }] } ∧
    san natEngine c6empty 1 = c6empty := by
  have h1 := san_appends_iff_resolves natEngine c6imp 1
  have h2 := san_appends_iff_resolves natEngine c6empty 1
  refine ⟨?_, h2.1 (by decide)⟩
  have h3 := (h1.2 [] { moves := [], position := 42 } (by decide)).1 2 (by decide)
  exact h3.trans (by decide)

/-- Invariant of the playthrough driver: starting anywhere inside the
solution line of the active puzzle with enough fuel, the run ends with
`current_move = len`, no reply pending, and `text` equal to `"Success"`
exactly when the remaining line has odd length (the trainee plays the last
move), otherwise left as it started. -/
theorem runLine_go [DecidableEq Mv] (e : Engine Pos Mv F San)
    (pz : Puzzle Pos Mv) :
    ∀ (fuel : Nat) (m : Model Pos Mv),
      m.puzzles[m.current_puzzle]? = some pz →
      m.current_move ≤ pz.moves.length →
      pz.moves.length ≤ m.current_move + fuel →
      (runLine e fuel m).2 = false ∧
      (runLine e fuel m).1.current_move = pz.moves.length ∧
      (runLine e fuel m).1.text =
        if (pz.moves.length - m.current_move) % 2 = 1 then "Success"
        else m.text := by
  intro fuel
  induction fuel with
  | zero =>
    intro m hpz hle hge
    have hkn : m.current_move = pz.moves.length := by omega
    have hzero : pz.moves.length - m.current_move = 0 := by omega
    exact ⟨rfl, by simp [runLine, hkn], by simp [runLine, hzero]⟩
  | succ fuel ih =>
    intro m hpz hle hge
    by_cases hk : m.current_move < pz.moves.length
    · obtain ⟨sol, hsol⟩ : ∃ s, pz.moves[m.current_move]? = some s :=
        ⟨_, List.getElem?_eq_getElem hk⟩
      by_cases hend : m.current_move + 1 = pz.moves.length
      · have step :
            runLine e (fuel + 1) m =
              ({ m with current_move := m.current_move + 1,
                        current_position := e.play_unchecked m.current_position sol,
                        can_play := false, text := "Success" }, false) := by
          simp [runLine, try_move, hpz, hsol, hend]
        rw [step]
        refine ⟨rfl, hend, ?_⟩
        have h1 : pz.moves.length - m.current_move = 1 := by omega
        rw [h1]
        simp
      · have hk2 : m.current_move + 1 < pz.moves.length := by omega
        obtain ⟨sol2, hsol2⟩ : ∃ s, pz.moves[m.current_move + 1]? = some s :=
          ⟨_, List.getElem?_eq_getElem hk2⟩
        have step :
            runLine e (fuel + 1) m =
              runLine e fuel
                { m with can_play := true,
                         current_move := m.current_move + 1 + 1,
                         current_position :=
                           e.play_unchecked (e.play_unchecked m.current_position sol) sol2 } := by
          simp [runLine, try_move, play_opponent_move, hpz, hsol, hsol2, hend]
        have key := ih
          { m with can_play := true,
                   current_move := m.current_move + 1 + 1,
                   current_position :=
                     e.play_unchecked (e.play_unchecked m.current_position sol) sol2 }
          hpz (by show m.current_move + 1 + 1 ≤ pz.moves.length; omega)
          (by show pz.moves.length ≤ m.current_move + 1 + 1 + fuel; omega)
        dsimp only at key
        have hpar : (pz.moves.length - (m.current_move + 1 + 1)) % 2 =
            (pz.moves.length - m.current_move) % 2 := by omega
        rw [hpar] at key
        rw [step]
        exact key
    · have hkn : m.current_move = pz.moves.length := by omega
      have hnone : pz.moves[m.current_move]? = none := by
        rw [hkn]
        exact List.getElem?_eq_none (le_refl _)
      have hzero : pz.moves.length - m.current_move = 0 := by omega
      exact ⟨by simp [runLine, hpz, hnone], by simp [runLine, hpz, hnone, hkn],
        by simp [runLine, hpz, hnone, hzero]⟩

/-- Claim C4 counterexample: for the two-move (even-length) solution line of
`pzA`, submitting the recorded moves interleaved with the fired reply ends
with `current_move = len(solution_moves)` but with `status_text` still
empty, not `"Success"` — the reply handler never sets the success text, and
only a trainee move that completes the line does. -/
theorem solution_line_counterexample :
    update natEngine c4s0 (Msg.MovePlayed 1 1 none) = some (c4s1, true) ∧
    update natEngine c4s1 Msg.PlayOpponentMove = some (c4s2, false) ∧
    c4s2.current_move = pzA.moves.length ∧
    c4s2.text ≠ "Success" :=
  ⟨by decide, by decide, by decide, by decide⟩

/-- Claim C4, amended: from a freshly shown puzzle, submitting exactly the
recorded solution moves in order, each scheduled opponent reply firing
before the next submission, always ends with
`current_move = len(solution_moves)` and no further opponent reply
scheduled; `status_text` ends as `"Success"` when the solution line has odd
length (the trainee plays the final move), and stays empty when it has even
length (the final move is played by the opponent reply, which never sets the
success text). -/
theorem solution_line_playthrough [DecidableEq Mv] (e : Engine Pos Mv F San)
    (m : Model Pos Mv) (pz : Puzzle Pos Mv)
    (h1 : m.puzzles[m.current_puzzle]? = some pz)
    (h2 : m.current_move = 0) (h3 : m.text = "") (h4 : pz.moves ≠ []) :
    (runLine e pz.moves.length m).2 = false ∧
    (runLine e pz.moves.length m).1.current_move = pz.moves.length ∧
    (runLine e pz.moves.length m).1.text =
      if pz.moves.length % 2 = 1 then "Success" else "" := by
  have key := runLine_go e pz pz.moves.length m h1 (by omega) (by omega)
  rw [h2, h3, Nat.sub_zero] at key
  exact key

/-- Claim C4 witness: the one-move puzzle `pzOne` ends in `"Success"`. -/
theorem solution_line_playthrough_witness :
    (runLine natEngine pzOne.moves.length c4w).2 = false ∧
    (runLine natEngine pzOne.moves.length c4w).1.current_move =
      pzOne.moves.length ∧
    (runLine natEngine pzOne.moves.length c4w).1.text =
      if pzOne.moves.length % 2 = 1 then "Success" else "" :=
  solution_line_playthrough natEngine c4w pzOne (by decide) (by decide)
    (by decide) (by decide)

/-- Claim C1: a fired opponent-reply event does not check that it still
targets the puzzle and move index current at scheduling time.  Concretely:
the trainee solves the first move of puzzle 0 (scheduling a reply),
navigates to puzzle 1, and when the stale timer fires it plays puzzle 1's
first solution move — advancing `current_move` and mutating
`current_position` — instead of being discarded with the state unchanged. -/
theorem stale_reply_replays_on_new_puzzle :
    update natEngine c1s0 (Msg.MovePlayed 1 1 none) = some (c1s1, true) ∧
    update natEngine c1s1 Msg.NextPuzzle = some (c1s2, false) ∧
    update natEngine c1s2 Msg.PlayOpponentMove = some (c1s3, false) ∧
    c1s3 ≠ c1s2 :=
  ⟨by decide, by decide, by decide, by decide⟩

/-- Claim C5: a `FEN` header whose value has the `|` separator as its very
first byte makes `&fen[..index - 1]` underflow its `usize` bound — a panic
(modelled as `none`) instead of the claimed warn-and-skip — while a header
whose left substring (minus the trailing character) decodes and resolves
appends exactly one puzzle with an empty solution list and moves the cursor
to it. -/
theorem header_pipe_first_panics :
    header natEngine (FENImporter.new natEngine) fenKey [124, 56] = none ∧
    header natEngine (FENImporter.new natEngine) fenKey [56, 32, 124, 97] =
      some { current_position := 42,
             puzzles := [{ moves := [], position := 42 }] } :=
  ⟨by decide, by decide⟩

end Buzzle
